import Mathlib

set_option maxRecDepth 100000

/-!
A shallow embedding of `sanic_metrics/plugin.py` (and the helpers it uses from
`sanic_metrics/util.py`).  Python dictionaries holding a fixed set of keys are
modelled as Lean structures with `Option` fields where a key may be absent;
Python exceptions are modelled with `Except String`; Unix timestamps
(Python floats from `time.time()`) are modelled as exact fractions.
-/

namespace SM

/-- Python values that can be tested for membership in the `TRUTHS` set
(line 39 of plugin.py): booleans, integers and strings. -/
inductive PyVal where
  | vbool (b : Bool)
  | vint (n : Int)
  | vstr (s : String)
deriving DecidableEq, Repr

/-- The string members of `TRUTHS = {True, 1, 't', 'T', '1', "true", "TRUE", "True"}`. -/
def TRUTH_STRINGS : List String := ["t", "T", "1", "true", "TRUE", "True"]

/-- Membership test `val in TRUTHS` with Python equality semantics:
`True == 1` in Python, so the boolean `True` and the integer `1` are both
members, and a string is a member exactly when it is one of the six listed
spellings (a Python `str` never compares equal to `True` or `1`). -/
def inTRUTHS : PyVal → Bool
  | .vbool b => b
  | .vint n => n == 1
  | .vstr s => TRUTH_STRINGS.contains s

/-- Python `str.lower()` restricted to the per-character case mapping
(sufficient for the ASCII configuration strings this plugin compares). -/
def pyLower (s : String) : String := String.mk (s.data.map Char.toLower)

/-- Python `str.strip()`: drop leading and trailing whitespace. -/
def pyStrip (s : String) : String :=
  String.mk (((s.data.dropWhile Char.isWhitespace).reverse.dropWhile Char.isWhitespace).reverse)

/-- Python `str.lstrip(c)` for a single character: drop every leading `c`. -/
def pyLstrip (c : Char) (s : String) : String := String.mk (s.data.dropWhile (· == c))

/-- Python `str.rstrip(c)` for a single character: drop every trailing `c`. -/
def pyRstrip (c : Char) (s : String) : String :=
  String.mk ((s.data.reverse.dropWhile (· == c)).reverse)

/-- Python `s.replace(old, new)` where `old` is a single character. -/
def pyReplaceChar (c : Char) (r : String) (s : String) : String :=
  String.mk ((s.data.map (fun ch => if ch == c then r.data else [ch])).flatten)

/-- Python `s.startswith(pre)`, via the character lists (the core
`String.startsWith` is not used since its reference implementation does
not reduce in the kernel). -/
def pyStartswith (pre : String) (s : String) : Bool := pre.data.isPrefixOf s.data

/-- Python `sep.join(l)`. -/
def pyJoin (sep : String) : List String → String
  | [] => ""
  | [x] => x
  | x :: y :: xs => x ++ sep ++ pyJoin sep (y :: xs)

/-- Exact fraction model of a Python float (`time.time()` values and
their arithmetic).  Values are unnormalized fractions with positive
denominator; the operations used by the plugin (subtraction,
multiplication, comparison with zero) are exact on them.  (Core `Rat` is
not used because its normalization goes through `Nat.gcd`, which the
kernel cannot evaluate.) -/
structure PyFloat where
  num : Int
  den : Int := 1
deriving DecidableEq, Repr

instance (n : Nat) : OfNat PyFloat n := ⟨⟨Int.ofNat n, 1⟩⟩

/-- Exact subtraction of fractions. -/
def PyFloat.sub (a b : PyFloat) : PyFloat :=
  ⟨a.num * b.den - b.num * a.den, a.den * b.den⟩

instance : Sub PyFloat := ⟨PyFloat.sub⟩

/-- Exact multiplication of fractions. -/
def PyFloat.mul (a b : PyFloat) : PyFloat := ⟨a.num * b.num, a.den * b.den⟩

instance : Mul PyFloat := ⟨PyFloat.mul⟩

/-- Python `==` on floats: cross-multiplied value equality (denominators
are kept positive). -/
def PyFloat.beq (a b : PyFloat) : Bool := a.num * b.den == b.num * a.den

instance : BEq PyFloat := ⟨PyFloat.beq⟩

/-- Python `<=` on floats (denominators kept positive). -/
instance : LE PyFloat := ⟨fun a b => a.num * b.den ≤ b.num * a.den⟩

instance (a b : PyFloat) : Decidable (a ≤ b) :=
  inferInstanceAs (Decidable (a.num * b.den ≤ b.num * a.den))

/-- `math.floor` of a fraction (denominator kept positive). -/
def PyFloat.floor (a : PyFloat) : Int := a.num.fdiv a.den

/-- The request descriptor consumed by the plugin: the fields of a Sanic
`Request` that `plugin.py` reads.  `args` and `headers` are multi-valued
mappings; an `Option` field whose value is `none` models an attribute whose
access raises (`AttributeError`/`LookupError`) or, for `remote_addr`,
also drives the `or` fallback when the value is falsy. -/
structure PyRequest where
  args : List (String × List String) := []
  headers : List (String × List String) := []
  server_name : Option String := none
  host : String := ""
  remote_addr : Option String := none
  ip : String := ""
  version : Option String := none
  method : String := "GET"
  path : String := "/"
  query_string : String := ""
  body : Option Nat := none
deriving Repr

/-- `request.args.getlist(key, default)` without the default: the list of
values stored under `key` (query args are a plain dict of lists, compared
case-sensitively). -/
def argsGetlist (req : PyRequest) (k : String) : List String :=
  ((req.args.find? (fun p => p.1 == k)).map Prod.snd).getD []

/-- `headers.getall(key, default)` without the default: all values stored
under `key` in a case-insensitive multidict. -/
def headersGetall (hs : List (String × List String)) (k : String) : List String :=
  ((hs.filter (fun p => pyLower p.1 == pyLower k)).map Prod.snd).flatten

/-- `getlist(key, [None])[-1]` / `getall(key, [None])[-1]`: the last value
for the key, or `none` when the key has no values. -/
def lastValue (l : List String) : Option String := l.getLast?

/-- The `opt` section of the plugin configuration (`default_config`,
lines 53-57): `type` is `'in'` by default, `method` is `'args'`, and the
key defaults, inside `get_opt`, to `"metrics"` for the args method and
`"X-Collect-Metrics"` for the headers method. -/
structure OptCfg where
  type : String := "in"
  method : String := "args"
  key : Option String := none
deriving Repr

/-- `SanicMetrics.get_opt` (plugin.py lines 102-136).  `prc` models the
private request context: `none` when `context.for_request(request)` raises,
`some c` when it exists and holds cached choice `c : Option Bool`.
Returns the decision together with the updated private request context, or
an error for the `NotImplementedError` raised on an unknown method. -/
def get_opt (opt : OptCfg) (req : PyRequest) (prc : Option (Option Bool)) :
    Except String (Bool × Option (Option Bool)) :=
  match prc with
  | some (some c) => .ok (c, some (some c))
  | _ =>
    let valRes : Except String (Option String) :=
      if opt.method == "args" then
        .ok (lastValue (argsGetlist req (opt.key.getD "metrics")))
      else if opt.method == "headers" then
        .ok (lastValue (headersGetall req.headers (opt.key.getD "X-Collect-Metrics")))
      else
        .error ("Opt-in/Out-out method " ++ opt.method)
    match valRes with
    | .error e => .error e
    | .ok valOpt =>
      let v : Bool :=
        match valOpt with
        | none => opt.type == "out"
        | some s => inTRUTHS (.vstr s)
      let opt_choice : Bool :=
        if opt.type == "out" then (if v == false then false else true)
        else (if v == true then true else false)
      match prc with
      | some _ => .ok (opt_choice, some (some opt_choice))
      | none => .ok (opt_choice, none)

/-- Civil date (year, month, day) from a count of days since 1970-01-01,
the classic era-based conversion used to model Python's
`datetime.fromtimestamp(..., tz=timezone.utc)` date part. -/
def civilFromDays (z0 : Int) : Int × Nat × Nat :=
  let z : Int := z0 + 719468
  let era : Int := z.ediv 146097
  let doe : Nat := (z - era * 146097).toNat
  let yoe : Nat := (doe - doe / 1460 + doe / 36524 - doe / 146096) / 365
  let y : Int := era * 400 + yoe
  let doy : Nat := doe - (365 * yoe + yoe / 4 - yoe / 100)
  let mp : Nat := (5 * doy + 2) / 153
  let d : Nat := doy - (153 * mp + 2) / 5 + 1
  let m : Nat := if mp < 10 then mp + 3 else mp - 9
  (if m ≤ 2 then y + 1 else y, m, d)

/-- A UTC datetime, the model of a Python `datetime` (tz=utc) value.
Microseconds are truncated from the fractional part of the timestamp. -/
structure DT where
  year : Int
  month : Nat
  day : Nat
  hour : Nat
  minute : Nat
  second : Nat
  micros : Nat
deriving DecidableEq, Repr

/-- `datetime.fromtimestamp(ts, tz=timezone.utc)`: split a Unix timestamp
into civil UTC date and time of day. -/
def dtFromTimestamp (ts : PyFloat) : DT :=
  let s : Int := ts.floor
  let days : Int := s.ediv 86400
  let sod : Nat := (s.emod 86400).toNat
  let ymd := civilFromDays days
  { year := ymd.1, month := ymd.2.1, day := ymd.2.2,
    hour := sod / 3600, minute := (sod % 3600) / 60, second := sod % 60,
    micros := ((ts - PyFloat.mk s 1) * 1000000).floor.toNat }

/-- Zero-pad the decimal rendering of a number to `w` digits. -/
def padZ (w : Nat) (n : Nat) : String :=
  let s := toString n
  String.mk (List.replicate (w - s.length) '0') ++ s

/-- Zero-pad a year, which may in principle be negative, to 4 digits. -/
def padYear (y : Int) : String :=
  if y < 0 then "-" ++ padZ 4 (-y).toNat else padZ 4 y.toNat

/-- English month abbreviations used by `strftime`'s `%b`. -/
def monthAbbrev (m : Nat) : String :=
  (["Jan", "Feb", "Mar", "Apr", "May", "Jun",
    "Jul", "Aug", "Sep", "Oct", "Nov", "Dec"].getD (m - 1) "???")

/-- `dt.strftime("%d/%b/%Y:%H:%M:%S %z")` on a UTC datetime (the Common
log format timestamp; `%z` renders as `+0000` for UTC). -/
def strftimeCommon (dt : DT) : String :=
  s!"{padZ 2 dt.day}/{monthAbbrev dt.month}/{padYear dt.year}:{padZ 2 dt.hour}:{padZ 2 dt.minute}:{padZ 2 dt.second} +0000"

/-- `dt.strftime("%Y-%m-%d %H:%M:%S")` (the W3C log line timestamp). -/
def strftimeW3C (dt : DT) : String :=
  s!"{padYear dt.year}-{padZ 2 dt.month}-{padZ 2 dt.day} {padZ 2 dt.hour}:{padZ 2 dt.minute}:{padZ 2 dt.second}"

/-- `util.datetime_to_iso` with `include_micros=None`: microseconds are
included exactly when they are nonzero. -/
def datetime_to_iso (ts : PyFloat) : String :=
  let dt := dtFromTimestamp ts
  let date := s!"{padYear dt.year}-{padZ 2 dt.month}-{padZ 2 dt.day}T{padZ 2 dt.hour}:{padZ 2 dt.minute}:{padZ 2 dt.second}"
  if dt.micros ≠ 0 then date ++ "." ++ padZ 6 dt.micros ++ "Z" else date ++ "Z"

/-- Python's `"\x7b:f\x7d".format(x)` on a rational: fixed-point rendering
with six decimal places (ties in the seventh place round up). -/
def formatFloatF (q : PyFloat) : String :=
  let neg := q.num < 0
  let scaled : Int := (PyFloat.mk (q.num.natAbs * 1000000 * 2 + q.den) (q.den * 2)).floor
  let ip : Nat := (scaled.ediv 1000000).toNat
  let fp : Nat := (scaled.emod 1000000).toNat
  (if neg then "-" else "") ++ toString ip ++ "." ++ padZ 6 fp

/-- The `log` section of the plugin configuration (`default_config`,
lines 58-63), restricted to the fields `log_metrics` reads. -/
structure LogCfg where
  format : String := "common"
  remove_ipv6_brackets : Bool := true
deriving Repr

/-- The `save_headers` section: either the literal `False` (save nothing)
or a mapping from header name to a save flag. -/
inductive SaveHeadersCfg where
  | off
  | table (l : List (String × Bool))
deriving Repr

/-- The default `save_headers` table from `default_config` lines 64-70. -/
def defaultSaveHeaders : SaveHeadersCfg :=
  .table [("Host", true), ("Referer", true), ("User-Agent", true),
          ("X-Forwarded-For", true), ("X-Forwarded-Host", true)]

/-- `SanicMetrics.collect_headers` (lines 84-100): for every header name
marked for saving, record all its values (possibly the empty list) from the
request's case-insensitive header multidict. -/
def collect_headers (req : Option PyRequest) (sh : SaveHeadersCfg) :
    List (String × List String) :=
  match req with
  | none => []
  | some r =>
    match sh with
    | .off => []
    | .table l =>
      l.filterMap (fun p =>
        if p.2 then some (p.1, headersGetall r.headers p.1) else none)

/-- Lookup in a plain (case-sensitive) Python dict modelled as an
association list: `d.get(k, default)` without the default. -/
def dictGet (l : List (String × List String)) (k : String) : Option (List String) :=
  (l.find? (fun p => p.1 == k)).map Prod.snd

/-- `(d.get(k, []) or [""])[-1]`: last value for `k`, with a missing key or
an empty value list giving `""` (an empty list is falsy in Python). -/
def lastHeaderValue (l : List (String × List String)) (k : String) : String :=
  match ((dictGet l k).getD []).getLast? with
  | some v => v
  | none => ""

/-- The flat request-details record built by
`SanicMetrics.get_details_from_request` (lines 268-303). -/
structure Details where
  reqbytes : Nat
  host : String
  reqversion : String
  method : String
  path : String
  qs : Option String
  remote_addr : String
  headers : List (String × List String)
deriving Repr

/-- `SanicMetrics.get_details_from_request` (lines 268-303): every read is
defended with a fallback; the query string, when nonempty, is re-prefixed
with `?`, and an absent query string becomes `None` (here `none`). -/
def get_details_from_request (req : PyRequest) (sh : SaveHeadersCfg) : Details :=
  let host := match req.server_name with
    | some h => h
    | none => req.host
  let remote_addr := match req.remote_addr with
    | some ra => if ra == "" then req.ip else ra
    | none => req.ip
  let req_version := req.version.getD "1.0"
  let headers := collect_headers (some req) sh
  let qs : Option String :=
    if req.query_string ≠ "" then some ("?" ++ req.query_string) else none
  let reqbytes := req.body.getD 0
  { reqbytes := reqbytes, host := host, reqversion := req_version,
    method := req.method, path := req.path, qs := qs,
    remote_addr := remote_addr, headers := headers }

/-- The mutable metrics dictionary accumulated by `metrics_post_resp` and
consumed by `log_metrics`; `Option`-typed fields model keys that may be
absent from the dict (read back with `.get(key, default)`). -/
structure Metrics where
  timestamp_start : Option PyFloat := none
  skip_response : Bool := false
  skip_logging : Bool := false
  datetime_start : PyFloat := 0
  datetime_start_iso : String := ""
  method : Option String := none
  reqbytes : Option Nat := none
  reqversion : Option String := none
  path : Option String := none
  qs : Option String := none
  headers : Option (List (String × List String)) := none
  host : Option String := none
  client : Option String := none
  status : Option Int := none
  bytes : Option Int := none
  cookies : Option String := none
  timestamp_end : Option PyFloat := none
  datetime_end : Option PyFloat := none
  datetime_end_iso : Option String := none
  time_delta_ms : Option PyFloat := none
  client_rfc931 : Option String := none
  client_username : Option String := none
deriving Repr

/-- An override mapping placed by application code in the shared request
context under `override_metrics`: for each metrics key, `some v` means the
key is present in the mapping with value `v` (and `metrics.update` will
replace that field), `none` means the key is absent. -/
structure Overrides where
  timestamp_start : Option PyFloat := none
  skip_response : Option Bool := none
  skip_logging : Option Bool := none
  datetime_start : Option PyFloat := none
  datetime_start_iso : Option String := none
  method : Option String := none
  reqbytes : Option Nat := none
  reqversion : Option String := none
  path : Option String := none
  qs : Option (Option String) := none
  headers : Option (List (String × List String)) := none
  host : Option String := none
  client : Option String := none
  status : Option Int := none
  bytes : Option Int := none
  cookies : Option (Option String) := none
  timestamp_end : Option PyFloat := none
  datetime_end : Option PyFloat := none
  datetime_end_iso : Option String := none
  time_delta_ms : Option PyFloat := none
  client_rfc931 : Option String := none
  client_username : Option String := none
deriving Repr

/-- `metrics.update(override_metrics)` (line 424): every key present in the
override mapping replaces the corresponding metrics entry. -/
def Metrics.update (m : Metrics) (o : Overrides) : Metrics where
  timestamp_start := match o.timestamp_start with | some v => some v | none => m.timestamp_start
  skip_response := o.skip_response.getD m.skip_response
  skip_logging := o.skip_logging.getD m.skip_logging
  datetime_start := o.datetime_start.getD m.datetime_start
  datetime_start_iso := o.datetime_start_iso.getD m.datetime_start_iso
  method := match o.method with | some v => some v | none => m.method
  reqbytes := match o.reqbytes with | some v => some v | none => m.reqbytes
  reqversion := match o.reqversion with | some v => some v | none => m.reqversion
  path := match o.path with | some v => some v | none => m.path
  qs := o.qs.getD m.qs
  headers := match o.headers with | some v => some v | none => m.headers
  host := match o.host with | some v => some v | none => m.host
  client := match o.client with | some v => some v | none => m.client
  status := match o.status with | some v => some v | none => m.status
  bytes := match o.bytes with | some v => some v | none => m.bytes
  cookies := o.cookies.getD m.cookies
  timestamp_end := match o.timestamp_end with | some v => some v | none => m.timestamp_end
  datetime_end := match o.datetime_end with | some v => some v | none => m.datetime_end
  datetime_end_iso := match o.datetime_end_iso with | some v => some v | none => m.datetime_end_iso
  time_delta_ms := match o.time_delta_ms with | some v => some v | none => m.time_delta_ms
  client_rfc931 := match o.client_rfc931 with | some v => some v | none => m.client_rfc931
  client_username := match o.client_username with | some v => some v | none => m.client_username

/-- The shape of the request part of a Common-family log line,
`"\x7bm:s\x7d \x7bp:s\x7d HTTP/\x7bv:s\x7d"` (line 171). -/
def rqTemplate (mth p vers : String) : String := s!"{mth} {p} HTTP/{vers}"

/-- The shape of a Common-family log line (line 172), prefixed by the
virtual-host marker for the v-formats. -/
def commonLineTemplate (vhost client rfc931 username dts rq : String)
    (status nb : Int) : String :=
  vhost ++ s!"{client} {rfc931} {username} [{dts}] \"{rq}\" {status} {nb}"

/-- The shape of a W3C log line (lines 194-197). -/
def w3cLineTemplate (dts host mth p qsS vers reqb client ua ref : String)
    (status nb : Int) (delta : PyFloat) : String :=
  s!"{dts} {host} {mth} {p} {qsS} HTTP/{vers} {reqb} {client} {ua} {ref} {status} HTTP/1.1 {nb} {formatFloatF delta}"

/-- The line-formatting portion of `SanicMetrics.log_metrics`
(lines 140-199): renders a metrics record into one log line, raising
`NotImplementedError` for a format outside the five known ones. -/
def logLine (log : LogCfg) (m : Metrics) : Except String String :=
  let format := pyLower (pyStrip log.format)
  let remove_ipv6_brackets := log.remove_ipv6_brackets
  let client0 := m.client.getD "0.0.0.0"
  let client := if remove_ipv6_brackets then pyRstrip ']' (pyLstrip '[' client0) else client0
  let method := m.method.getD "GET"
  let reqversion := m.reqversion.getD "1.0"
  let nbytes := m.bytes.getD 0
  let status := m.status.getD 0
  let dt := dtFromTimestamp m.datetime_start
  let host0 := m.host.getD "127.0.0.1"
  let host := if remove_ipv6_brackets then pyRstrip ']' (pyLstrip '[' host0) else host0
  let urlpath := m.path.getD "/"
  let qs := m.qs
  if format == "common" || format == "combined" || format == "vcommon" || format == "vcombined" then
    let vhost := if pyStartswith "v" format then (pyReplaceChar ':' "" host) ++ ": " else ""
    let client_rfc931 := m.client_rfc931.getD "-"
    let client_username := m.client_username.getD "-"
    let dt_string := strftimeCommon dt
    let p := match qs with
      | some q => if q ≠ "" then urlpath ++ q else urlpath
      | none => urlpath
    let rq_string := rqTemplate method p reqversion
    let base := commonLineTemplate vhost client client_rfc931 client_username dt_string rq_string status nbytes
    if format == "combined" || format == "vcombined" then
      let headers := m.headers.getD []
      let referrer := lastHeaderValue headers "Referer"
      let user_agent := lastHeaderValue headers "User-Agent"
      match m.cookies with
      | none => .ok (base ++ s!" \"{referrer}\" \"{user_agent}\"")
      | some c => .ok (base ++ s!" \"{referrer}\" \"{user_agent}\" \"{c}\"")
    else
      .ok base
  else if format == "w3c" then
    let reqbytes := m.reqbytes.getD 0
    let headers := m.headers.getD []
    let time_taken := m.time_delta_ms.getD 0
    let referrer := pyReplaceChar ' ' "+" (lastHeaderValue headers "Referer")
    let user_agent := pyReplaceChar ' ' "+" (lastHeaderValue headers "User-Agent")
    let dt_string := strftimeW3C dt
    let qsS := match qs with
      | none => ""
      | some q => q
    .ok (w3cLineTemplate dt_string host method urlpath qsS reqversion
          (toString reqbytes) client user_agent referrer status nbytes time_taken)
  else
    .error ("Cannot log metrics for format " ++ format)

/-- The file-system circumstances met by one invocation of the sink
portion of `log_metrics` / `write_log_header`: does the resolved filename
have a nonempty directory component, does that directory or the file
already exist, and does each individual I/O step succeed. -/
structure SinkWorld where
  has_dirname : Bool := false
  dir_exists : Bool := true
  mkdir_ok : Bool := true
  file_exists : Bool := true
  header_open_ok : Bool := true
  header_write_ok : Bool := true
  append_open_ok : Bool := true
  append_write_ok : Bool := true
deriving Repr

/-- `SanicMetrics.write_log_header` (lines 232-266): the common family has
no header (immediate return); for w3c the header open/write is wrapped in a
bare `except:` that swallows any failure (`.ok false` = swallowed failure,
header not written); any other format raises `NotImplementedError`. -/
def write_log_header (format : String) (w : SinkWorld) : Except String Bool :=
  if format == "combined" || format == "common" || format == "vcombined" || format == "vcommon" then
    .ok false
  else if format == "w3c" then
    if w.header_open_ok then
      if w.header_write_ok then .ok true else .ok false
    else .ok false
  else
    .error ("Cannot write logfile header for format " ++ format)

/-- The sink portion of `log_metrics` (lines 200-230), entered after the
log line was formatted (so `format` is one of the five known formats):
a nonexistent parent directory is created and a failing `mkdir` raises
`RuntimeError` (line 210); a nonexistent file first receives a header; the
append itself sits in a bare `except:` that swallows open/write failures.
Returns whether the line was actually appended. -/
def log_metrics_sink (format : String) (w : SinkWorld) : Except String Bool :=
  let step_dir : Except String Unit :=
    if w.has_dirname && !w.dir_exists then
      if w.mkdir_ok then .ok () else .error "Cannot create directory!"
    else .ok ()
  match step_dir with
  | .error e => .error e
  | .ok _ =>
    match (if !w.file_exists then write_log_header format w else .ok false) with
    | .error e => .error e
    | .ok _ =>
      if w.append_open_ok then
        if w.append_write_ok then .ok true else .ok false
      else .ok false

/-- `SanicMetrics.log_metrics` (lines 138-230) in full: format the line
(raising on an unknown format at line 199), then run the sink steps.
Returns the appended line, or `none` when an I/O failure was swallowed. -/
def log_metrics (log : LogCfg) (m : Metrics) (w : SinkWorld) :
    Except String (Option String) :=
  match logLine log m with
  | .error e => .error e
  | .ok line =>
    match log_metrics_sink (pyLower (pyStrip log.format)) w with
    | .error e => .error e
    | .ok written => .ok (if written then some line else none)

/-- The private request context written by `metrics_pre_req` and read back
by `metrics_post_resp`: the cached sampling choice, the entry-phase clock
value, the `skip_request` flag stored from the hook-visible dict, and the
extracted request details (absent when detail extraction was skipped). -/
structure Rctx where
  opt_choice : Option Bool := none
  time_pre : Option PyFloat := none
  skip_request : Bool := false
  details : Option Details := none
deriving Repr

/-- The `my_metrics` dict handed to the pre-request hook (lines 329-332):
the hook may mutate `time_pre` and the `skip_request` flag. -/
structure MyMetrics where
  time_pre : PyFloat
  skip_request : Bool
deriving Repr

/-- The `hooks` section of the configuration: optional pre-request and
post-response callbacks mutating the hook-visible record in place. -/
structure Hooks where
  pre_request : Option (MyMetrics → MyMetrics) := none
  post_response : Option (Metrics → Metrics) := none

/-- The resolved plugin configuration (the keys of `default_config` that
the middlewares read). -/
structure PluginCfg where
  opt : OptCfg := {}
  log : LogCfg := {}
  save_headers : SaveHeadersCfg := defaultSaveHeaders
  hooks : Hooks := {}
  save_cookies : Bool := false

/-- `metrics_pre_req` (lines 309-345): on a request with an available
private request context, decide sampling (possibly caching the choice),
run the pre-request hook, extract request details unless the hook set
`skip_request`, and store everything into the private request context.
Returns the updated context (the middleware itself always returns
`False`). -/
def metrics_pre_req (cfg : PluginCfg) (req : PyRequest) (time_pre : PyFloat)
    (rctx0 : Option Rctx) : Except String (Option Rctx) :=
  match rctx0 with
  | none => .ok none
  | some rctx =>
    match get_opt cfg.opt req (some rctx.opt_choice) with
    | .error e => .error e
    | .ok (opted, prc') =>
      let rctx := { rctx with opt_choice := prc'.getD rctx.opt_choice }
      if !opted then .ok (some rctx)
      else
        let my0 : MyMetrics := { time_pre := time_pre, skip_request := false }
        let my := match cfg.hooks.pre_request with
          | some hk => hk my0
          | none => my0
        let rctx :=
          if !my.skip_request then
            { rctx with details := some (get_details_from_request req cfg.save_headers) }
          else rctx
        .ok (some { rctx with time_pre := some my.time_pre, skip_request := my.skip_request })

/-- The response descriptor consumed at the exit phase: status code, body
length (absent when reading the body raises) and the cookie mapping. -/
structure PyResponse where
  status : Int
  body : Option Nat := none
  cookies : List (String × String) := []
deriving Repr

/-- Lines 375-390 of `metrics_post_resp`: the `metrics` dict as first
assembled from the stored entry-phase details (`src`, absent when detail
extraction was skipped) and the local `time_pre`. -/
def mkBaseRecord (src : Option Details) (time_pre : PyFloat) : Metrics where
  timestamp_start := some time_pre
  skip_response := false
  skip_logging := false
  datetime_start := time_pre
  datetime_start_iso := datetime_to_iso time_pre
  method := some ((src.map (·.method)).getD "GET")
  reqbytes := some ((src.map (·.reqbytes)).getD 0)
  reqversion := some ((src.map (·.reqversion)).getD "1.0")
  path := some ((src.map (·.path)).getD "/")
  qs := (src.map (·.qs)).getD none
  headers := some ((src.map (·.headers)).getD [])
  host := some ((src.map (·.host)).getD "127.0.0.1")
  client := some ((src.map (·.remote_addr)).getD "0.0.0.0")

/-- Lines 393-399: run the post-response hook on the live record,
a no-op when none is configured. -/
def applyPostHook (hooks : Hooks) (m : Metrics) : Metrics :=
  match hooks.post_response with
  | some hk => hk m
  | none => m

/-- Lines 400-416: capture the response status / body length / cookies,
or finalize with status 500, 0 bytes and no cookie string when the
response is absent-or-falsy or `skip_response` was set on the record. -/
def captureResponse (save_cookies : Bool) (response : Option PyResponse)
    (m : Metrics) : Metrics :=
  match response with
  | some resp =>
    if !m.skip_response then
      { m with status := some resp.status,
               bytes := some ((resp.body.getD 0 : Nat) : Int),
               cookies := if save_cookies then
                   some (pyJoin ";"
                     (resp.cookies.map (fun (p : String × String) => p.1 ++ "=" ++ p.2)))
                 else none }
    else { m with status := some 500, bytes := some 0, cookies := none }
  | none => { m with status := some 500, bytes := some 0, cookies := none }

/-- Lines 417-424: merge the override mapping from the shared request
context, a no-op when none was stored (or the lookup raised). -/
def applyOverride (override_metrics : Option Overrides) (m : Metrics) : Metrics :=
  match override_metrics with
  | some o => m.update o
  | none => m

/-- Lines 426-433: resolve the end timestamp (a falsy — absent or zero —
`timestamp_end` is replaced by a fresh clock reading `time_final`) and
compute the end-time fields, overwriting whatever the record held. -/
def finalizeTimes (time_final time_pre : PyFloat) (m : Metrics) : Metrics :=
  let time_post2 : PyFloat := match m.timestamp_end with
    | some t => if t == 0 then time_final else t
    | none => time_final
  { m with timestamp_end := some time_post2,
           datetime_end := some time_post2,
           datetime_end_iso := some (datetime_to_iso time_post2),
           time_delta_ms := some ((time_post2 - time_pre) * 1000) }

/-- Lines 373-436 of `metrics_post_resp` after the entry-phase state was
resolved: build, hook, capture, override, read `skip_logging`, finalize
times, and log unless skipped.  Returns the record handed to
`log_metrics`, if any. -/
def post_body (cfg : PluginCfg) (response : Option PyResponse)
    (override_metrics : Option Overrides) (src : Option Details)
    (time_pre time_final : PyFloat) : Option Metrics :=
  let m3 := applyOverride override_metrics
    (captureResponse cfg.save_cookies response
      (applyPostHook cfg.hooks (mkBaseRecord src time_pre)))
  if !m3.skip_logging then some (finalizeTimes time_final time_pre m3) else none

/-- Lines 361-372 of `metrics_post_resp`: resolve the entry-phase state.
A missing private request context (`rctx0 = none`, the `for_request`
lookup raised) is recovered by extracting details on the spot with
`time_pre = time_post`; an available context without a stored `time_pre`
aborts (`none`). -/
def resolveEntryState (cfg : PluginCfg) (req : PyRequest) (rctx0 : Option Rctx)
    (time_post : PyFloat) : Option (Option Details × PyFloat) :=
  match rctx0 with
  | some r => r.time_pre.map (fun tp => (r.details, tp))
  | none => some (some (get_details_from_request req cfg.save_headers), time_post)

/-- `metrics_post_resp` (lines 348-436): decide sampling again, resolve
the entry-phase state, and run the record pipeline.  `time_post` is the
clock value captured on entry (line 357) and `time_final` the one
captured at line 427.  Returns `some m` exactly when `log_metrics` is
invoked with final record `m`. -/
def metrics_post_resp (cfg : PluginCfg) (req : PyRequest) (response : Option PyResponse)
    (rctx0 : Option Rctx) (override_metrics : Option Overrides)
    (time_post : PyFloat) (time_final : PyFloat) : Except String (Option Metrics) :=
  match get_opt cfg.opt req (rctx0.map (·.opt_choice)) with
  | .error e => .error e
  | .ok (opted, _) =>
    if !opted then .ok none
    else
      match resolveEntryState cfg req rctx0 time_post with
      | none => .ok none
      | some (src, time_pre) =>
        .ok (post_body cfg response override_metrics src time_pre time_final)

/-- One full request through both middlewares: the entry phase runs with a
fresh, available private request context whose result feeds the exit
phase. -/
def run_request (cfg : PluginCfg) (req : PyRequest) (response : Option PyResponse)
    (override_metrics : Option Overrides) (time_pre time_post time_final : PyFloat) :
    Except String (Option Metrics) :=
  match metrics_pre_req cfg req time_pre (some {}) with
  | .error e => .error e
  | .ok rctx1 =>
    metrics_post_resp cfg req response rctx1 override_metrics time_post time_final

/-- Whether a pipeline outcome handed a metrics record to `log_metrics`
(so that a log line is written, sink permitting). -/
def loggedB (r : Except String (Option Metrics)) : Bool :=
  match r with
  | .ok (some _) => true
  | _ => false

/-- The `time_delta_ms` field of the record handed to `log_metrics`, when
one was. -/
def loggedDelta (r : Except String (Option Metrics)) : Option PyFloat :=
  match r with
  | .ok (some m) => m.time_delta_ms
  | _ => none

/-- Project a field out of the record handed to `log_metrics`, when one
was. -/
def loggedProj {α : Type} (f : Metrics → α) (r : Except String (Option Metrics)) :
    Option α :=
  match r with
  | .ok (some m) => some (f m)
  | _ => none

example : get_opt { type := "out" } { } (some none) = .ok (true, some (some true)) := by rfl
example : get_opt { type := "in" } { } (some none) = .ok (false, some (some false)) := by rfl
example : get_opt { type := "in" } { args := [("metrics", ["TRUE"])] } (some none)
    = .ok (true, some (some true)) := by rfl
example : get_opt { type := "in" } { args := [("metrics", ["yes"])] } (some none)
    = .ok (false, some (some false)) := by rfl
example : get_opt { type := "out", method := "headers" }
    { headers := [("x-collect-metrics", ["false"])] } (some none)
    = .ok (false, some (some false)) := by rfl
example : get_opt { method := "bogus" } { } (some none)
    = .error "Opt-in/Out-out method bogus" := by rfl

/-- A configuration whose pre-request hook sets `skip_request` and whose
post-response hook sets `skip_response` (but neither sets
`skip_logging`), under opt-out sampling. -/
def cfgSkipBoth : PluginCfg where
  opt := { type := "out" }
  hooks := { pre_request := some (fun my => { my with skip_request := true }),
             post_response := some (fun m => { m with skip_response := true }) }

example :
    logLine { format := "common" }
      { datetime_start := 1614556800, method := some "GET", path := some "/index",
        qs := some "?x=1", client := some "203.0.113.5", reqversion := some "1.1",
        status := some 200, bytes := some 13 }
      = .ok "203.0.113.5 - - [01/Mar/2021:00:00:00 +0000] \"GET /index?x=1 HTTP/1.1\" 200 13" := by
  rfl

example :
    logLine { format := "common" } { client := some "[::1]", datetime_start := 0 }
      = .ok "::1 - - [01/Jan/1970:00:00:00 +0000] \"GET / HTTP/1.0\" 0 0" := by rfl

/-- A cached sampling choice is returned as is (first branch of
`get_opt`). -/
theorem get_opt_cached (opt : OptCfg) (req : PyRequest) (c : Bool) :
    get_opt opt req (some (some c)) = .ok (c, some (some c)) := rfl

/-- Once `get_opt` runs with an available private request context, the
context afterwards caches exactly the returned choice. -/
theorem get_opt_caches (opt : OptCfg) (req : PyRequest) (x : Option Bool)
    (b : Bool) (st : Option (Option Bool))
    (h : get_opt opt req (some x) = .ok (b, st)) : st = some (some b) := by
  unfold get_opt at h
  rcases x with _ | c
  · simp only at h
    split at h
    · exact absurd h (by simp)
    · split at h <;>
      · obtain ⟨rfl, rfl⟩ := h
        rfl
  · simp only at h
    injection h with h1
    injection h1 with h2 h3
    rw [← h3, h2]

/-- C1: for a request with no cached sampling choice, opt type "out" with
no supplied value decides true and "in" with no supplied value decides
false; with a supplied value the decision, under "in" as under "out", is
exactly TRUTHS membership; and TRUTHS membership holds exactly for the
boolean True, the integer 1 and the six string spellings "t", "T", "1",
"true", "TRUE", "True" — any other value counts as false. -/
theorem c1_sampling_decision (req : PyRequest) (k : String) :
    (lastValue (argsGetlist req k) = none →
      get_opt { type := "out", method := "args", key := some k } req (some none)
          = .ok (true, some (some true)) ∧
      get_opt { type := "in", method := "args", key := some k } req (some none)
          = .ok (false, some (some false))) ∧
    (∀ s, lastValue (argsGetlist req k) = some s → ∀ ty, ty = "in" ∨ ty = "out" →
      get_opt { type := ty, method := "args", key := some k } req (some none)
          = .ok (inTRUTHS (.vstr s), some (some (inTRUTHS (.vstr s))))) ∧
    (∀ v : PyVal, inTRUTHS v = true ↔
      (v = .vbool true ∨ v = .vint 1 ∨ v = .vstr "t" ∨ v = .vstr "T" ∨
       v = .vstr "1" ∨ v = .vstr "true" ∨ v = .vstr "TRUE" ∨ v = .vstr "True")) := by
  refine ⟨fun h => ⟨?_, ?_⟩, fun s h ty hty => ?_, fun v => ?_⟩
  · simp [get_opt, h]
  · simp [get_opt, h]
  · rcases hty with rfl | rfl <;> simp [get_opt, h]
  · rcases v with b | n | s
    · cases b <;> simp [inTRUTHS]
    · simp [inTRUTHS]
    · simp [inTRUTHS, TRUTH_STRINGS, List.elem_iff]

/-- Witness for C1: both defaults, a truthy string, and the integer 1. -/
theorem c1_sampling_decision_witness :
    get_opt { type := "out", method := "args", key := some "metrics" } { } (some none)
        = .ok (true, some (some true)) ∧
    get_opt { type := "in", method := "args", key := some "metrics" }
        { args := [("metrics", ["True"])] } (some none)
        = .ok (true, some (some true)) ∧
    inTRUTHS (.vint 1) = true :=
  ⟨((c1_sampling_decision { } "metrics").1 rfl).1,
   by
     have h := (c1_sampling_decision { args := [("metrics", ["True"])] } "metrics").2.1
       "True" rfl "in" (Or.inl rfl)
     exact h,
   ((c1_sampling_decision { } "metrics").2.2 (.vint 1)).2 (by simp)⟩

/-- C2: a cached sampling choice is returned unchanged with the cache
untouched, for any request whatsoever (so the query parameter / header is
not re-read); and any decision taken with an available request context is
cached, so every later decider call in the same request returns the same
value: one request is never sampled in one phase and unsampled in the
other. -/
theorem c2_cached_choice_stable (opt : OptCfg) (req req' : PyRequest) (c : Bool)
    (x : Option Bool) (b : Bool) (st : Option (Option Bool))
    (h : get_opt opt req (some x) = .ok (b, st)) :
    get_opt opt req' (some (some c)) = .ok (c, some (some c)) ∧
    get_opt opt req' st = .ok (b, st) := by
  refine ⟨rfl, ?_⟩
  rw [get_opt_caches opt req x b st h]
  rfl

/-- Witness for C2: a first call on an opt-in request caches `true`; a
second call on a different request returns the cached `true`. -/
theorem c2_cached_choice_stable_witness :
    get_opt { type := "in" } { } (some (some true)) = .ok (true, some (some true)) ∧
    get_opt { type := "in" } { } (some (some true)) = .ok (true, some (some true)) :=
  c2_cached_choice_stable { type := "in" } { args := [("metrics", ["1"])] } { } true
    none true (some (some true)) rfl

/-- C6 counterexample: a configured `opt.type` outside the fixed {in, out}
enumeration is not a loud configuration error: at the concrete type
"bogus", `get_opt` silently falls back to the opt-in default behaviour
(false with no value supplied, truthy-driven when one is), exactly as for
type "in", instead of raising. -/
theorem c6_unknown_opt_type_silent :
    get_opt { type := "bogus" } { } (some none) = .ok (false, some (some false)) ∧
    get_opt { type := "bogus" } { args := [("metrics", ["true"])] } (some none)
        = .ok (true, some (some true)) := ⟨rfl, rfl⟩

/-- C6 amended: a sampling method outside {args, headers} and a log format
outside {common, combined, vcommon, vcombined, w3c} do fail loudly with
`NotImplementedError`; but an `opt.type` outside {in, out} is silently
treated as "in": for every type other than "out", `get_opt` computes
exactly what it computes for type "in". -/
theorem c6_amended_enumeration_errors :
    (∀ (opt : OptCfg) (req : PyRequest), opt.method ≠ "args" → opt.method ≠ "headers" →
      get_opt opt req (some none) = .error ("Opt-in/Out-out method " ++ opt.method)) ∧
    (∀ (log : LogCfg) (m : Metrics),
      pyLower (pyStrip log.format)
          ∉ (["common", "combined", "vcommon", "vcombined", "w3c"] : List String) →
      logLine log m = .error ("Cannot log metrics for format " ++ pyLower (pyStrip log.format))) ∧
    (∀ (t mth : String) (k : Option String) (req : PyRequest) (prc : Option (Option Bool)),
      t ≠ "out" →
      get_opt { type := t, method := mth, key := k } req prc
        = get_opt { type := "in", method := mth, key := k } req prc) := by
  refine ⟨fun opt req h1 h2 => ?_, fun log m h => ?_, fun t mth k req prc h => ?_⟩
  · simp [get_opt, h1, h2]
  · simp only [List.mem_cons, List.mem_singleton, not_or, List.not_mem_nil,
      not_false_iff, and_true] at h
    obtain ⟨h1, h2, h3, h4, h5⟩ := h
    simp [logLine, h1, h2, h3, h4, h5]
  · have hb : (t == "out") = false := beq_eq_false_iff_ne.mpr h
    rcases prc with _ | ⟨_ | c⟩
    · simp [get_opt, hb]
    · simp [get_opt, hb]
    · rfl

/-- Witness for C6 amended: the method "post" and the format "clf" raise,
and type "bogus" agrees with type "in" on a concrete request. -/
theorem c6_amended_enumeration_errors_witness :
    get_opt { method := "post" } { } (some none)
        = .error ("Opt-in/Out-out method " ++ "post") ∧
    logLine { format := "clf" } { }
        = .error ("Cannot log metrics for format " ++ pyLower (pyStrip "clf")) ∧
    get_opt { type := "bogus" } { } (some none)
        = get_opt { type := "in" } { } (some none) :=
  ⟨c6_amended_enumeration_errors.1 { method := "post" } { } (by decide) (by decide),
   c6_amended_enumeration_errors.2.1 { format := "clf" } { } (by decide),
   c6_amended_enumeration_errors.2.2 "bogus" "args" none { } (some none) (by decide)⟩

/-- Whenever `logLine` succeeds, the normalized format string is one of
the five known formats. -/
theorem logLine_ok_format (log : LogCfg) (m : Metrics) (line : String)
    (h : logLine log m = .ok line) :
    pyLower (pyStrip log.format) = "common" ∨ pyLower (pyStrip log.format) = "combined" ∨
    pyLower (pyStrip log.format) = "vcommon" ∨ pyLower (pyStrip log.format) = "vcombined" ∨
    pyLower (pyStrip log.format) = "w3c" := by
  simp only [logLine] at h
  split at h
  · rename_i hc
    simp only [Bool.or_eq_true, beq_iff_eq] at hc
    tauto
  · split at h
    · rename_i hc
      simp only [beq_iff_eq] at hc
      tauto
    · exact absurd h (by simp)

/-- For any of the five known formats, the sink swallows every open/write
failure, and raises exactly when the filename has a missing directory
component whose creation fails. -/
theorem log_metrics_sink_spec (f : String) (w : SinkWorld)
    (hf : f = "common" ∨ f = "combined" ∨ f = "vcommon" ∨ f = "vcombined" ∨ f = "w3c") :
    log_metrics_sink f w =
      if w.has_dirname && !w.dir_exists && !w.mkdir_ok then
        .error "Cannot create directory!"
      else .ok (w.append_open_ok && w.append_write_ok) := by
  obtain ⟨hd, de, mk, fe, ho, hw, ao, aw⟩ := w
  rcases hf with rfl | rfl | rfl | rfl | rfl <;>
    cases hd <;> cases de <;> cases mk <;> cases fe <;> cases ho <;> cases hw <;>
      cases ao <;> cases aw <;> rfl

/-- C3 counterexample: a directory-creation failure inside the logging
path is NOT contained: when the resolved filename has a directory
component that does not exist and `mkdir` fails, `log_metrics` raises
`RuntimeError("Cannot create directory! ...")` (plugin.py line 210), which
propagates out of the response-phase handler. -/
theorem c3_mkdir_failure_propagates :
    log_metrics { format := "common" } { }
        { has_dirname := true, dir_exists := false, mkdir_ok := false }
      = .error "Cannot create directory!" := rfl

/-- C3 amended: every failure in the logging path apart from directory
creation is contained — file open, header write and append failures never
propagate and at most lose the log line — while a directory-creation
failure (missing directory, failing mkdir) raises and propagates out of
the response-phase handler. -/
theorem c3_amended_io_failures_contained (log : LogCfg) (m : Metrics)
    (w : SinkWorld) (line : String) (h : logLine log m = .ok line) :
    (¬(w.has_dirname = true ∧ w.dir_exists = false ∧ w.mkdir_ok = false) →
      log_metrics log m w
        = .ok (if w.append_open_ok && w.append_write_ok then some line else none)) ∧
    ((w.has_dirname = true ∧ w.dir_exists = false ∧ w.mkdir_ok = false) →
      log_metrics log m w = .error "Cannot create directory!") := by
  have hf := logLine_ok_format log m line h
  have hsink := log_metrics_sink_spec (pyLower (pyStrip log.format)) w hf
  constructor
  · intro hn
    unfold log_metrics
    rw [h, hsink]
    obtain ⟨hd, de, mk, fe, ho, hw, ao, aw⟩ := w
    cases hd <;> cases de <;> cases mk <;> simp_all
  · rintro ⟨h1, h2, h3⟩
    unfold log_metrics
    rw [h, hsink, h1, h2, h3]
    rfl

/-- Witness for C3 amended: an append-write failure is swallowed (the
line is lost, no exception), and a mkdir failure raises. -/
theorem c3_amended_io_failures_contained_witness :
    log_metrics { format := "common" } { } { append_write_ok := false } = .ok none ∧
    log_metrics { format := "common" } { }
        { has_dirname := true, dir_exists := false, mkdir_ok := false }
      = .error "Cannot create directory!" := by
  have hmain := c3_amended_io_failures_contained { format := "common" } { }
    { append_write_ok := false }
    "0.0.0.0 - - [01/Jan/1970:00:00:00 +0000] \"GET / HTTP/1.0\" 0 0" rfl
  have hmain2 := c3_amended_io_failures_contained { format := "common" } { }
    { has_dirname := true, dir_exists := false, mkdir_ok := false }
    "0.0.0.0 - - [01/Jan/1970:00:00:00 +0000] \"GET / HTTP/1.0\" 0 0" rfl
  refine ⟨?_, hmain2.2 (by simp)⟩
  have := hmain.1 (by simp)
  simpa using this

/-- C4 counterexample: a request whose pre-request hook sets
`skip_request` and whose post-response hook sets `skip_response` still
hands a metrics record to `log_metrics` — a log line IS written for it
(with default request fields and status 500), because `metrics_post_resp`
never consults `skip_request` and `skip_response` only reroutes the
response-capture branch; only `skip_logging` suppresses the write. -/
theorem c4_skip_flags_still_logged :
    loggedB (run_request cfgSkipBoth { } (some { status := 200 }) none 0 1 1) = true := by
  rfl

/-- C4 amended: of the three flags, only `skip_logging` short-circuits the
log write (every record handed to `log_metrics` has it false);
`skip_request` short-circuits only request-detail extraction (the stored
details are left untouched); and a request with both `skip_request` and
`skip_response` set still produces a log record. -/
theorem c4_amended_only_skip_logging :
    (∀ (cfg : PluginCfg) (req : PyRequest) (resp : Option PyResponse)
        (rctx0 : Option Rctx) (ov : Option Overrides) (tp tf : PyFloat) (m : Metrics),
      metrics_post_resp cfg req resp rctx0 ov tp tf = .ok (some m) →
      m.skip_logging = false) ∧
    (∀ (cfg : PluginCfg) (req : PyRequest) (tp : PyFloat) (rctx r' : Rctx),
      cfg.hooks.pre_request = some (fun my => { my with skip_request := true }) →
      metrics_pre_req cfg req tp (some rctx) = .ok (some r') →
      r'.details = rctx.details) ∧
    loggedB (run_request cfgSkipBoth { } (some { status := 200 }) none 0 1 1) = true := by
  refine ⟨fun cfg req resp rctx0 ov tp tf m h => ?_, fun cfg req tp rctx r' hhook h => ?_, by rfl⟩
  · simp only [metrics_post_resp] at h
    split at h
    · exact absurd h (by simp)
    · split at h
      · exact absurd h (by simp)
      · split at h
        · exact absurd h (by simp)
        · injection h with h1
          simp only [post_body] at h1
          split at h1
          · rename_i hskip
            injection h1 with h2
            rw [← h2]
            simpa [finalizeTimes] using hskip
          · exact absurd h1 (by simp)
  · simp only [metrics_pre_req, hhook] at h
    split at h
    · exact absurd h (by simp)
    · split at h
      · injection h with h1
        injection h1 with h2
        rw [← h2]
      · injection h with h1
        injection h1 with h2
        rw [← h2]
        simp

/-- Witness for C4 amended: the skip-request hook leaves the stored
details untouched on a concrete request. -/
theorem c4_amended_only_skip_logging_witness :
    Rctx.details { opt_choice := some true, time_pre := some 0, skip_request := true,
                   details := none }
      = Rctx.details { } :=
  c4_amended_only_skip_logging.2.1 cfgSkipBoth { } 0 { }
    { opt_choice := some true, time_pre := some 0, skip_request := true, details := none }
    rfl rfl

/-- C5 counterexample: the override mapping is NOT applied after every
other field has been computed: overriding `time_delta_ms` with 999999 is
useless, because the end-time fields are computed after the merge
(lines 426-433 run after line 424) — the emitted record still carries
(time_final - time_pre) * 1000 = 5000. -/
theorem c5_override_not_applied_last :
    loggedProj (fun m => m.time_delta_ms)
        (run_request { opt := { type := "out" } } { } (some { status := 200 })
          (some { time_delta_ms := some 999999 }) 0 0 5)
      = some (some 5000) ∧ (5000 : PyFloat) ≠ 999999 := ⟨by rfl, by decide⟩

/-- C5 amended: the override mapping is applied after the request-side and
response-side fields, so an overridden `status` shadows the computed
response status in the emitted record; but it is applied BEFORE the
end-time fields are computed: `datetime_end`, `datetime_end_iso` and
`time_delta_ms` are recomputed after the merge and overwrite any
overridden values — the pipeline result does not depend on those three
override entries at all. -/
theorem c5_amended_overrides_before_end_times :
    (∀ (cfg : PluginCfg) (req : PyRequest) (resp : Option PyResponse)
        (rctx0 : Option Rctx) (o : Overrides) (tp tf : PyFloat) (m : Metrics) (v : Int),
      metrics_post_resp cfg req resp rctx0 (some o) tp tf = .ok (some m) →
      o.status = some v → m.status = some v) ∧
    (∀ (cfg : PluginCfg) (req : PyRequest) (resp : Option PyResponse)
        (rctx0 : Option Rctx) (o : Overrides) (tp tf : PyFloat),
      metrics_post_resp cfg req resp rctx0 (some o) tp tf
        = metrics_post_resp cfg req resp rctx0
            (some { o with time_delta_ms := none, datetime_end := none,
                           datetime_end_iso := none }) tp tf) := by
  constructor
  · intro cfg req resp rctx0 o tp tf m v h ho
    simp only [metrics_post_resp] at h
    split at h
    · exact absurd h (by simp)
    · split at h
      · exact absurd h (by simp)
      · split at h
        · exact absurd h (by simp)
        · injection h with h1
          simp only [post_body] at h1
          split at h1
          · injection h1 with h2
            rw [← h2]
            simp [finalizeTimes, applyOverride, Metrics.update, ho]
          · exact absurd h1 (by simp)
  · intro cfg req resp rctx0 o tp tf
    rfl

/-- Witness for C5 amended: a concrete run whose override sets status 999
while the actual response status is 200 logs status 999. -/
theorem c5_amended_overrides_before_end_times_witness :
    Metrics.status
      { timestamp_start := some 0, datetime_start := 0,
        datetime_start_iso := "1970-01-01T00:00:00Z",
        method := some "GET", reqbytes := some 0, reqversion := some "1.0",
        path := some "/", qs := none, headers := some [],
        host := some "127.0.0.1", client := some "0.0.0.0",
        status := some 999, bytes := some 0, cookies := none,
        timestamp_end := some 5, datetime_end := some 5,
        datetime_end_iso := some "1970-01-01T00:00:05Z",
        time_delta_ms := some 5000 }
      = some 999 :=
  c5_amended_overrides_before_end_times.1 { opt := { type := "out" } } { }
    (some { status := 200 }) (some { time_pre := some 0 }) { status := some 999 }
    0 5 _ 999 rfl rfl

/-- C7: a record logged through the pipeline (no hooks, no overrides)
carries `time_delta_ms = (time_final - time_pre) * 1000`; and the W3C
formatter renders a record with that delta and an absent query string as
the fixed field template whose query-string field is the empty string and
whose final (elapsed-time) field is `(time_post - time_pre) * 1000`
rendered as a fixed-point real number. -/
theorem c7_w3c_elapsed_and_query :
    (∀ (cfg : PluginCfg) (req : PyRequest) (resp : Option PyResponse) (tp tpost tf : PyFloat),
      cfg.hooks.pre_request = none → cfg.hooks.post_response = none →
      loggedB (run_request cfg req resp none tp tpost tf) = true →
      loggedProj (fun m => m.time_delta_ms) (run_request cfg req resp none tp tpost tf)
        = some (some ((tf - tp) * 1000))) ∧
    (∀ (log : LogCfg) (m : Metrics) (tpre tpost : PyFloat),
      pyLower (pyStrip log.format) = "w3c" → log.remove_ipv6_brackets = true →
      m.qs = none → m.time_delta_ms = some ((tpost - tpre) * 1000) → tpre ≤ tpost →
      logLine log m = .ok (w3cLineTemplate
        (strftimeW3C (dtFromTimestamp m.datetime_start))
        (pyRstrip ']' (pyLstrip '[' (m.host.getD "127.0.0.1")))
        (m.method.getD "GET") (m.path.getD "/") ""
        (m.reqversion.getD "1.0") (toString (m.reqbytes.getD 0))
        (pyRstrip ']' (pyLstrip '[' (m.client.getD "0.0.0.0")))
        (pyReplaceChar ' ' "+" (lastHeaderValue (m.headers.getD []) "User-Agent"))
        (pyReplaceChar ' ' "+" (lastHeaderValue (m.headers.getD []) "Referer"))
        (m.status.getD 0) (m.bytes.getD 0) ((tpost - tpre) * 1000))) := by
  constructor
  · intro cfg req resp tp tpost tf hpre hpost hlog
    simp only [run_request, metrics_pre_req] at hlog ⊢
    cases hg : get_opt cfg.opt req (some none) with
    | error e =>
      rw [hg] at hlog
      simp [loggedB] at hlog
    | ok pr =>
      obtain ⟨b, st⟩ := pr
      obtain rfl : st = some (some b) := get_opt_caches _ _ _ _ _ hg
      simp only [hpre, Bool.not_eq_true'] at hlog ⊢
      cases b with
      | false =>
        rw [hg] at hlog
        simp [metrics_post_resp, get_opt_cached, loggedB] at hlog
      | true =>
        rcases resp with _ | r <;>
          simp [metrics_post_resp, get_opt_cached, resolveEntryState, post_body,
                applyPostHook, hpost, applyOverride, captureResponse,
                finalizeTimes, mkBaseRecord, loggedProj]
  · intro log m tpre tpost hfmt hbr hq hd hord
    simp only [logLine, hfmt, hbr, hq, hd]
    rfl

/-- Witness for C7: a full pipeline run with 5 seconds between entry and
exit logs `time_delta_ms = 5000`, and the W3C formatter emits the elapsed
field `5000.000000` last and an empty query-string field (two consecutive
spaces after the path). -/
theorem c7_w3c_elapsed_and_query_witness :
    loggedProj (fun m => m.time_delta_ms)
        (run_request { opt := { type := "out" } } { } (some { status := 200 }) none 0 0 5)
      = some (some ((5 - 0) * 1000)) ∧
    logLine { format := "w3c" }
        { datetime_start := 0, qs := none, time_delta_ms := some 5000, status := some 200 }
      = .ok "1970-01-01 00:00:00 127.0.0.1 GET /  HTTP/1.0 0 0.0.0.0   200 HTTP/1.1 0 5000.000000" := by
  constructor
  · exact c7_w3c_elapsed_and_query.1 { opt := { type := "out" } } { }
      (some { status := 200 }) 0 0 5 rfl rfl (by rfl)
  · have h := c7_w3c_elapsed_and_query.2 { format := "w3c" }
      { datetime_start := 0, qs := none, time_delta_ms := some 5000, status := some 200 }
      0 5 rfl rfl rfl rfl (by decide)
    exact h

/-- C8: in Combined (and VCombined) format, a record without a captured
Referer header, User-Agent header or cookie string renders the referrer
and user-agent as empty-string quoted fields (never "-"), omits the
cookie field entirely, and renders the rfc931 and username fields as "-". -/
theorem c8_combined_missing_fields (log : LogCfg) (m : Metrics)
    (hr : lastHeaderValue (m.headers.getD []) "Referer" = "")
    (hu : lastHeaderValue (m.headers.getD []) "User-Agent" = "")
    (hc : m.cookies = none) (hrf : m.client_rfc931 = none)
    (hun : m.client_username = none) (hq : m.qs = none)
    (hbr : log.remove_ipv6_brackets = true) :
    (pyLower (pyStrip log.format) = "combined" →
      logLine log m = .ok (commonLineTemplate ""
        (pyRstrip ']' (pyLstrip '[' (m.client.getD "0.0.0.0"))) "-" "-"
        (strftimeCommon (dtFromTimestamp m.datetime_start))
        (rqTemplate (m.method.getD "GET") (m.path.getD "/") (m.reqversion.getD "1.0"))
        (m.status.getD 0) (m.bytes.getD 0) ++ " \"\" \"\"")) ∧
    (pyLower (pyStrip log.format) = "vcombined" →
      logLine log m = .ok (commonLineTemplate
        (pyReplaceChar ':' "" (pyRstrip ']' (pyLstrip '[' (m.host.getD "127.0.0.1"))) ++ ": ")
        (pyRstrip ']' (pyLstrip '[' (m.client.getD "0.0.0.0"))) "-" "-"
        (strftimeCommon (dtFromTimestamp m.datetime_start))
        (rqTemplate (m.method.getD "GET") (m.path.getD "/") (m.reqversion.getD "1.0"))
        (m.status.getD 0) (m.bytes.getD 0) ++ " \"\" \"\"")) := by
  constructor
  · intro hfmt
    simp only [logLine, hfmt, hbr, hq, hc, hr, hu, hrf, hun]
    rfl
  · intro hfmt
    simp only [logLine, hfmt, hbr, hq, hc, hr, hu, hrf, hun]
    rfl

/-- Witness for C8: a record with no captured headers, cookies, rfc931 or
username renders in Combined format with `- -`, two empty quoted fields
and no cookie field. -/
theorem c8_combined_missing_fields_witness :
    logLine { format := "combined" } { datetime_start := 0, status := some 200, bytes := some 13 }
      = .ok "0.0.0.0 - - [01/Jan/1970:00:00:00 +0000] \"GET / HTTP/1.0\" 200 13 \"\" \"\"" := by
  have h := (c8_combined_missing_fields { format := "combined" }
    { datetime_start := 0, status := some 200, bytes := some 13 }
    rfl rfl rfl rfl rfl rfl rfl).1 rfl
  exact h

/-- C9: when the private request context is absent at the exit phase (the
`for_request` lookup raises, e.g. after an early pipeline short-circuit),
a sampled request (no hooks) still produces a log record: the detail
extractor is invoked directly on the request available then (path,
headers and client address come from `get_details_from_request`), and the
elapsed time is `(time_final - time_post) * 1000` — the exit-phase clock
gap only, i.e. effectively zero rather than missing. -/
theorem c9_missing_entry_state_recovered (cfg : PluginCfg) (req : PyRequest)
    (resp : Option PyResponse) (tpost tf : PyFloat)
    (hpost : cfg.hooks.post_response = none)
    (hopt : get_opt cfg.opt req none = .ok (true, none)) :
    loggedB (metrics_post_resp cfg req resp none none tpost tf) = true ∧
    loggedProj (fun m => m.time_delta_ms) (metrics_post_resp cfg req resp none none tpost tf)
      = some (some ((tf - tpost) * 1000)) ∧
    loggedProj (fun m => m.path) (metrics_post_resp cfg req resp none none tpost tf)
      = some (some (get_details_from_request req cfg.save_headers).path) ∧
    loggedProj (fun m => m.headers) (metrics_post_resp cfg req resp none none tpost tf)
      = some (some (get_details_from_request req cfg.save_headers).headers) ∧
    loggedProj (fun m => m.client) (metrics_post_resp cfg req resp none none tpost tf)
      = some (some (get_details_from_request req cfg.save_headers).remote_addr) := by
  simp only [metrics_post_resp, Option.map_none, hopt, resolveEntryState]
  rcases resp with _ | r <;>
    simp [hopt, post_body, applyPostHook, hpost, applyOverride, captureResponse,
          finalizeTimes, mkBaseRecord, loggedB, loggedProj]

/-- Witness for C9: a concrete request handled without entry-phase state
is still logged, with elapsed time `(3 - 3) * 1000 = 0`. -/
theorem c9_missing_entry_state_recovered_witness :
    loggedB (metrics_post_resp { opt := { type := "out" } }
        { path := "/x", remote_addr := some "203.0.113.5" }
        (some { status := 200 }) none none 3 3) = true ∧
    loggedProj (fun m => m.time_delta_ms)
        (metrics_post_resp { opt := { type := "out" } }
          { path := "/x", remote_addr := some "203.0.113.5" }
          (some { status := 200 }) none none 3 3)
      = some (some 0) := by
  have h := c9_missing_entry_state_recovered { opt := { type := "out" } }
    { path := "/x", remote_addr := some "203.0.113.5" }
    (some { status := 200 }) 3 3 rfl rfl
  exact ⟨h.1, h.2.1⟩

/-- C10: when the response object is absent-or-falsy at the exit phase, or
the post-response hook set `skip_response`, the metrics record is
finalized with status 500, zero response bytes and no cookie string
before formatting (no override mapping present). -/
theorem c10_absent_response_finalized_500 :
    (∀ (cfg : PluginCfg) (req : PyRequest) (rctx0 : Option Rctx) (tp tf : PyFloat)
        (m : Metrics),
      metrics_post_resp cfg req none rctx0 none tp tf = .ok (some m) →
      m.status = some 500 ∧ m.bytes = some 0 ∧ m.cookies = none) ∧
    (∀ (cfg : PluginCfg) (req : PyRequest) (resp : PyResponse) (rctx0 : Option Rctx)
        (tp tf : PyFloat) (m : Metrics),
      cfg.hooks.post_response = some (fun mm => { mm with skip_response := true }) →
      metrics_post_resp cfg req (some resp) rctx0 none tp tf = .ok (some m) →
      m.status = some 500 ∧ m.bytes = some 0 ∧ m.cookies = none) := by
  constructor
  · intro cfg req rctx0 tp tf m h
    simp only [metrics_post_resp] at h
    split at h
    · exact absurd h (by simp)
    · split at h
      · exact absurd h (by simp)
      · split at h
        · exact absurd h (by simp)
        · injection h with h1
          simp only [post_body] at h1
          split at h1
          · injection h1 with h2
            rw [← h2]
            simp [finalizeTimes, applyOverride, captureResponse]
          · exact absurd h1 (by simp)
  · intro cfg req resp rctx0 tp tf m hhook h
    simp only [metrics_post_resp] at h
    split at h
    · exact absurd h (by simp)
    · split at h
      · exact absurd h (by simp)
      · split at h
        · exact absurd h (by simp)
        · injection h with h1
          simp only [post_body, applyPostHook, hhook] at h1
          split at h1
          · injection h1 with h2
            rw [← h2]
            simp [finalizeTimes, applyOverride, captureResponse]
          · exact absurd h1 (by simp)

/-- Witness for C10: a concrete exit phase with no response object logs a
record with status 500, 0 bytes and no cookies. -/
theorem c10_absent_response_finalized_500_witness :
    Metrics.status
        { timestamp_start := some 0, datetime_start := 0,
          datetime_start_iso := "1970-01-01T00:00:00Z",
          method := some "GET", reqbytes := some 0, reqversion := some "1.0",
          path := some "/", qs := none, headers := some [],
          host := some "127.0.0.1", client := some "0.0.0.0",
          status := some 500, bytes := some 0, cookies := none,
          timestamp_end := some 2, datetime_end := some 2,
          datetime_end_iso := some "1970-01-01T00:00:02Z",
          time_delta_ms := some ((2 - (0 : PyFloat)) * 1000) }
        = some 500 ∧
    Metrics.bytes
        { timestamp_start := some 0, datetime_start := 0,
          datetime_start_iso := "1970-01-01T00:00:00Z",
          method := some "GET", reqbytes := some 0, reqversion := some "1.0",
          path := some "/", qs := none, headers := some [],
          host := some "127.0.0.1", client := some "0.0.0.0",
          status := some 500, bytes := some 0, cookies := none,
          timestamp_end := some 2, datetime_end := some 2,
          datetime_end_iso := some "1970-01-01T00:00:02Z",
          time_delta_ms := some ((2 - (0 : PyFloat)) * 1000) }
        = some 0 :=
  have h := c10_absent_response_finalized_500.1 { opt := { type := "out" } } { }
    (some { time_pre := some 0 }) 0 2 _ rfl
  ⟨h.1, h.2.1⟩

end SM
